import Mathlib

/-!
# Verification of the cpan123 path-resolution / traversal / transfer core

Shallow embedding of the listing, path resolution, tree walking, upload and
download logic of the `cpan123` client (files `FileList.py`, `File.py`,
`pan.py`, `Downloader.py`, `Uploader.py`).

The HTTP backend is modelled as a script of responses: a directory listing is
a `List Page` (the successive pages the backend hands back for the successive
cursor values), and a whole account is a function `Nat → List Page` from a
directory id to its page script.  The embeddings below follow the success
paths of the Python loops; retry branches (HTTP 429, malformed responses)
re-issue the same request and are therefore not represented in a script of
well-formed pages.
-/

namespace Cpan123

/-- One backend file entry, as it appears in a `fileList` array.
`type = 1` marks a directory, `type = 0` a file; `trashed ≠ 0` marks a
soft-deleted (recycle-bin) entry.  Mirrors the dict fields used by the code. -/
structure Entry where
  fileId : Nat
  filename : String
  type : Nat
  trashed : Nat
  etag : String
deriving Repr, DecidableEq

/-- One page of a `list_v2` response: its `fileList` array and the
`lastFileId` pagination cursor, `-1` being the end-of-pages sentinel. -/
structure Page where
  fileList : List Entry
  lastFileId : Int
deriving Repr, DecidableEq

/-- Embedding of `File.list_v2` (File.py, lines 179-226) applied to the raw
backend page: with `isTrashed = false` (the default) entries whose `trashed`
field is not `0` are filtered out; with `isTrashed = true` the page is
returned unchanged. -/
def File_list_v2 (p : Page) (isTrashed : Bool := false) : Page :=
  if isTrashed then p
  else { p with fileList := p.fileList.filter (fun e => e.trashed == 0) }

/-- The trashed-filtered entry list of a page, i.e. what
`File.list_v2` hands to its callers by default. -/
def trashedFilter (p : Page) : List Entry :=
  (File_list_v2 p).fileList

/-- Accumulator loop of `FileList.get_file_list_v2` (FileList.py, lines
203-255) on the success path.  `isFirst` mirrors `last_file_id is None`
(true before the first successful page): an empty (filtered) first page makes
the function return its accumulator immediately, otherwise the page is
appended and the loop stops exactly on the `lastFileId == -1` sentinel.
An exhausted script while the loop still wants pages returns the
accumulator (the real loop would issue another request). -/
def getFileListV2Go : List Page → Bool → List Entry → List Entry
  | [], _, acc => acc
  | p :: rest, isFirst, acc =>
    let fl := (File_list_v2 p).fileList
    if fl.isEmpty && isFirst then acc
    else
      let acc2 := acc ++ fl
      if p.lastFileId == -1 then acc2
      else getFileListV2Go rest false acc2

/-- Embedding of `FileList.get_file_list_v2`: the complete paged listing of
one directory whose backend page script is `pages`. -/
def get_file_list_v2 (pages : List Page) : List Entry :=
  getFileListV2Go pages true []

/-- The two-page script refuting C1 as stated: the first backend page holds
only a trashed entry, the second (final) page holds a live one. -/
def c1Pages : List Page :=
  [⟨[⟨5, "old.txt", 0, 1, "e5"⟩], 5⟩, ⟨[⟨7, "doc.txt", 0, 0, "e7"⟩], -1⟩]

/-! ## Path syntax (pathlib suffix rule) and the two path resolvers -/

/-- Index of the last `'.'` in a character list (Python `str.rfind('.')`),
`none` when there is no dot. -/
def lastDotIdx (cs : List Char) : Option Nat :=
  ((List.range cs.length).filter (fun i => cs.getD i ' ' = '.')).getLast?

/-- Whether `PurePosixPath(name).suffix` is non-empty: pathlib gives a final path component a
non-empty suffix exactly when its last dot sits at an interior position
`0 < i < len - 1`; a leading dot (`".config"`) or a trailing dot (`"a."`)
yields an empty suffix. -/
def pyHasSuffix (name : String) : Bool :=
  let cs := name.toList
  match lastDotIdx cs with
  | some i => decide (0 < i ∧ i < cs.length - 1)
  | none => false

/-- Python errors raised by the embedded functions. -/
inductive PyError where
  | valueError
  | runtimeError
deriving Repr, DecidableEq

/-- Entry-match test both resolvers apply to one candidate at one path
segment (pan.py lines 529-544, Downloader.py lines 292-307): name equality
and not trashed; for a non-last segment the entry must be a directory, for
the last segment its type must agree with the caller's `is_dir` flag. -/
def segMatch (name : String) (isLast : Bool) (is_dir : Bool) (item : Entry) : Bool :=
  item.filename == name && item.trashed == 0 &&
    (if isLast then item.type == (if is_dir then 1 else 0) else item.type == 1)

/-- One-directory pagination scan of `Pan123openAPI.find_file_id_by_path`
(pan.py lines 521-551): pages are whatever its `file.list_v2` collaborator
returns (that module is not part of this source tree; the scan re-checks
`trashed == 0` itself via `segMatch`).  An empty page breaks the scan; the
first matching entry wins; the scan stops at the `-1` sentinel. -/
def panFindLoop (name : String) (isLast : Bool) (is_dir : Bool) : List Page → Option Entry
  | [] => none
  | p :: rest =>
    if p.fileList.isEmpty then none
    else
      match p.fileList.find? (segMatch name isLast is_dir) with
      | some it => some it
      | none =>
        if p.lastFileId == -1 then none
        else panFindLoop name isLast is_dir rest

/-- Segment walk of `Pan123openAPI.find_file_id_by_path` (pan.py lines
516-558): walks the parts left to right from `current_id`, failing with
`(None, None)` as soon as a segment is not found; at the end the found
entry's `fileId` and the entry are returned (`(None, None)` when no part was
ever matched, i.e. the root path). -/
def panWalk (backend : Nat → List Page) (is_dir : Bool) :
    List String → Nat → Option Entry → Option (Nat × Entry)
  | [], _, citem =>
    match citem with
    | none => none
    | some it => some (it.fileId, it)
  | name :: rest, cid, _ =>
    match panFindLoop name rest.isEmpty is_dir (backend cid) with
    | none => none
    | some it => panWalk backend is_dir rest it.fileId (some it)

/-- Embedding of `Pan123openAPI.find_file_id_by_path` (pan.py lines 488-558)
for an absolute path given by its parts: the syntactic gate first (a path
with a non-empty suffix may not be requested as a directory, a path without
a suffix may not be requested as a file), then the segment walk from the
root id 0. -/
def find_file_id_by_path (backend : Nat → List Page) (parts : List String)
    (is_dir : Bool := true) : Except PyError (Option (Nat × Entry)) :=
  let sfx := pyHasSuffix (parts.getLastD "")
  if sfx && is_dir then .error .valueError
  else if !sfx && !is_dir then .error .valueError
  else .ok (panWalk backend is_dir parts 0 none)

/-- One-directory pagination scan of `Downloader._find_file_by_path`
(Downloader.py lines 285-314).  Its `File.list_v2` collaborator (File.py)
filters trashed entries by default, so the scanned `file_list` is the
trashed-filtered page. -/
def dlFindLoop (name : String) (isLast : Bool) (is_dir : Bool) : List Page → Option Entry
  | [] => none
  | p :: rest =>
    let fl := (File_list_v2 p).fileList
    if fl.isEmpty then none
    else
      match fl.find? (segMatch name isLast is_dir) with
      | some it => some it
      | none =>
        if p.lastFileId == -1 then none
        else dlFindLoop name isLast is_dir rest

/-- Segment walk of `Downloader._find_file_by_path` (Downloader.py lines
272-319): like the pan walk but, on success, the pair `(current_id,
current_item)` is returned even when no segment was walked (`(0, None)` for
the root path). -/
def dlWalk (backend : Nat → List Page) (is_dir : Bool) :
    List String → Nat → Option Entry → Option (Nat × Option Entry)
  | [], cid, citem => some (cid, citem)
  | name :: rest, cid, _ =>
    match dlFindLoop name rest.isEmpty is_dir (backend cid) with
    | none => none
    | some it => dlWalk backend is_dir rest it.fileId (some it)

/-- Embedding of `Downloader._find_file_by_path`: no syntactic gate at all,
resolution starts at the root id 0. -/
def downloader_find_file_by_path (backend : Nat → List Page)
    (parts : List String) (is_dir : Bool := false) : Option (Nat × Option Entry) :=
  dlWalk backend is_dir parts 0 none

/-- Validation-plus-resolution portion of `Downloader.download_file`
(Downloader.py lines 66-91): a path without a suffix is rejected with
`ValueError` before any network call; otherwise the path is resolved as a
file.  (The actual byte download that follows is outside this model.) -/
def downloader_download_file_resolve (backend : Nat → List Page)
    (parts : List String) : Except PyError (Option (Nat × Option Entry)) :=
  if !pyHasSuffix (parts.getLastD "") then .error .valueError
  else .ok (dlWalk backend false parts 0 none)

/-- Validation-plus-resolution portion of `Downloader.download_folder`
(Downloader.py lines 164-189): a path with a suffix, or the bare root, is
rejected with `ValueError` before any network call; otherwise the path is
resolved as a directory. -/
def downloader_download_folder_resolve (backend : Nat → List Page)
    (parts : List String) : Except PyError (Option Nat) :=
  if pyHasSuffix (parts.getLastD "") then .error .valueError
  else if parts.isEmpty then .error .valueError
  else .ok ((dlWalk backend true parts 0 none).map Prod.fst)

/-- The File entry of the C2 counterexample directory. -/
def c2FileEntry : Entry := ⟨21, "x", 0, 0, "ef"⟩

/-- The Directory entry of the C2 counterexample directory. -/
def c2DirEntry : Entry := ⟨10, "x", 1, 0, "ed"⟩

/-- A backend whose every directory holds both the File and the Directory
named `"x"`. -/
def c2Backend : Nat → List Page := fun _ => [⟨[c2FileEntry, c2DirEntry], -1⟩]

/-- The directory entry named `".config"` of the C10 counterexample. -/
def c10Entry : Entry := ⟨5, ".config", 1, 0, "ec"⟩

/-- A backend whose every directory holds the `".config"` directory. -/
def c10Backend : Nat → List Page := fun _ => [⟨[c10Entry], -1⟩]

/-! ## Recursive tree walks (`_get_file_list` in pan.py and Downloader.py) -/

/-- Split a POSIX path string into its non-empty components. -/
def pathParts (s : String) : List String :=
  (s.splitOn "/").filter (fun c => c ≠ "")

/-- Whether a POSIX path string is anchored at the root. -/
def isAbsPath (s : String) : Bool :=
  s.startsWith "/"

/-- Embedding of `str(PurePosixPath(p).relative_to(base))` on the slash-joined paths built
by the walkers: defined when the anchors agree and `base`'s components are a
prefix of `p`'s, yielding the joined remainder (`"."` when they are equal);
`none` models the `ValueError` pathlib raises otherwise. -/
def relative_to (p base : String) : Option String :=
  if isAbsPath p = isAbsPath base && (pathParts base).isPrefixOf (pathParts p) then
    let rem := (pathParts p).drop (pathParts base).length
    some (if rem.isEmpty then "." else String.intercalate "/" rem)
  else none

/-- Python `str.rstrip("/")`. -/
def rstripSlash (s : String) : String :=
  s.dropRightWhile (fun c => c = '/')

/-- A backend entry annotated with the session-local `full_path` and
`relative_path` fields the walkers add. -/
structure AnnEntry extends Entry where
  full_path : String
  relative_path : String
deriving Repr, DecidableEq

/-- Per-entry annotation of `Pan123openAPI._get_file_list` (pan.py lines
584-599): `item_path = f"{current_path}/{filename}".rstrip("/")`; the
relative path falls back to the bare filename when `relative_to` fails, and
an empty relative path becomes `"."`. -/
def panAnnotate (cur base : String) (e : Entry) : AnnEntry :=
  let item_path := rstripSlash (cur ++ "/" ++ e.filename)
  let rel :=
    if base ≠ "" then
      match relative_to item_path base with
      | some r => r
      | none => e.filename
    else e.filename
  { e with full_path := item_path, relative_path := if rel = "" then "." else rel }

/-- Per-entry annotation of `Downloader._get_file_list` (Downloader.py lines
332-352): leading slash kept explicitly, no `"."` fallback for an empty
relative path. -/
def dlAnnotate (cur base : String) (e : Entry) : AnnEntry :=
  let item_path := if cur ≠ "" then cur ++ "/" ++ e.filename else "/" ++ e.filename
  let rel :=
    if base ≠ "" then (relative_to item_path base).getD e.filename
    else e.filename
  { e with full_path := item_path, relative_path := rel }

/-- Page loop of `Pan123openAPI._get_file_list` (pan.py lines 578-612) for
one directory, with the recursion into sub-directories supplied as
`recurse`.  An empty page breaks the loop; each entry is annotated; a
directory entry is appended AND recursed into, a file entry is appended as a
leaf; the loop stops at the `-1` sentinel.  (Its `file.list_v2` collaborator
is not part of this source tree, so pages are taken as that call returns
them.) -/
def panGFLGo (recurse : Nat → String → List AnnEntry) (cur base : String) :
    List Page → List AnnEntry
  | [] => []
  | p :: rest =>
    if p.fileList.isEmpty then []
    else
      let out := (p.fileList.map (panAnnotate cur base)).flatMap
        (fun it => if it.type == 1 then it :: recurse it.fileId it.full_path else [it])
      if p.lastFileId == -1 then out
      else out ++ panGFLGo recurse cur base rest

/-- Embedding of `Pan123openAPI._get_file_list` (pan.py lines 560-616).  The
Python recursion carries no depth guard; `fuel` models the call stack (a
walk of a tree of depth `< fuel` is exact). -/
def pan_get_file_list (backend : Nat → List Page) (base : String) :
    Nat → Nat → String → List AnnEntry
  | 0, _, _ => []
  | fuel + 1, pid, cur =>
    panGFLGo (fun cid cpath => pan_get_file_list backend base fuel cid cpath)
      cur base (backend pid)

/-- Page loop of `Downloader._get_file_list` (Downloader.py lines 326-362):
like the pan walk, except that its `File.list_v2` collaborator filters
trashed entries, and a directory entry is ONLY recursed into — it is never
itself appended to the returned list. -/
def dlGFLGo (recurse : Nat → String → List AnnEntry) (cur base : String) :
    List Page → List AnnEntry
  | [] => []
  | p :: rest =>
    let fl := (File_list_v2 p).fileList
    if fl.isEmpty then []
    else
      let out := (fl.map (dlAnnotate cur base)).flatMap
        (fun it => if it.type == 1 then recurse it.fileId it.full_path else [it])
      if p.lastFileId == -1 then out
      else out ++ dlGFLGo recurse cur base rest

/-- Embedding of `Downloader._get_file_list` (Downloader.py lines 321-364),
fuel modelling the unguarded call stack. -/
def downloader_get_file_list (backend : Nat → List Page) (base : String) :
    Nat → Nat → String → List AnnEntry
  | 0, _, _ => []
  | fuel + 1, pid, cur =>
    dlGFLGo (fun cid cpath => downloader_get_file_list backend base fuel cid cpath)
      cur base (backend pid)

/-- The sub-directory entry of the C3 counterexample tree. -/
def c3DirEntry : Entry := ⟨2, "sub", 1, 0, "ed"⟩

/-- The file inside the sub-directory of the C3 counterexample tree. -/
def c3FileEntry : Entry := ⟨3, "a.txt", 0, 0, "ef"⟩

/-- Backend of the C3 counterexample: directory 1 contains the directory
`sub` (id 2), which contains the file `a.txt` (id 3). -/
def c3Backend : Nat → List Page := fun pid =>
  if pid = 1 then [⟨[c3DirEntry], -1⟩]
  else if pid = 2 then [⟨[c3FileEntry], -1⟩]
  else [⟨[], -1⟩]

/-! ## Recursive listing with the 1000-deep recursion guard (FileList.py) -/

/-- Observable events of one `recursive_list_v1` / `recursive_list_v2`
traversal: a saved per-directory JSON (directory id and item count) or the
logged too-deep error that abandons a branch. -/
inductive WalkEvent where
  | saved (parentId : Nat) (count : Nat)
  | depthError (parentId : Nat)
deriving Repr, DecidableEq

/-- The `fullpath` annotation of the recursive listers (FileList.py lines
299-312): `f"{current_path}/{filename}"`, or `f"/{filename}"` at the root. -/
def v1FullPath (cur name : String) : String :=
  if cur ≠ "" then cur ++ "/" ++ name else "/" ++ name

/-- Embedding of `FileList.recursive_list_v1` (FileList.py lines 263-353).
`backend` gives the successful accumulated `fileList` of
`get_file_list_v1` per directory id.  A branch whose `depth` exceeds 1000 is
abandoned with a logged error and a normal return; otherwise the directory's
JSON is saved and each sub-directory entry with a usable id and name is
recursed into at `depth + 1` (an entry with id 0 or an empty name is
skipped, as its recursive call is suppressed or fails argument validation
and is caught per item).  Total because the guard bounds the recursion
depth — this is the termination content of the claim. -/
def recursive_list_v1 (backend : Nat → List Entry) (pid : Nat) (cur : String)
    (depth : Nat) : List WalkEvent :=
  if depth > 1000 then [.depthError pid]
  else
    let items := backend pid
    .saved pid items.length ::
      (items.filter (fun it => it.type == 1)).flatMap
        (fun it =>
          if it.fileId == 0 || it.filename == "" then []
          else recursive_list_v1 backend it.fileId (v1FullPath cur it.filename)
            (depth + 1))
termination_by 1001 - depth
decreasing_by
  simp_wf
  omega

/-- Serial per-directory task of `FileList.recursive_list_v2` (the
`process_directory` closure, FileList.py lines 389-453): a task whose
`current_depth` exceeds 1000 produces the logged error and NO child tasks
(the branch is abandoned, other queued tasks are unaffected); otherwise it
saves the directory's v2 listing and returns one child task per
sub-directory entry with a non-zero id, each at `current_depth + 1`. -/
def process_directory_v2 (backend : Nat → List Page) (dir_id : Nat)
    (path : String) (current_depth : Nat) :
    List WalkEvent × List (Nat × String × Nat) :=
  if current_depth > 1000 then ([.depthError dir_id], [])
  else
    let items := get_file_list_v2 (backend dir_id)
    ([.saved dir_id items.length],
      (items.filter (fun it => it.type == 1)).filterMap
        (fun it =>
          if it.fileId == 0 then none
          else some (it.fileId, v1FullPath path it.filename, current_depth + 1)))

/-- The self-loop backend: every directory contains itself (id 1). -/
def selfLoopBackend : Nat → List Entry := fun _ => [⟨1, "d", 1, 0, "e"⟩]

/-! ## Chunked upload (Uploader.py `upload_file_chunked`, pan.py
`_upload_common`) -/

/-- The `data` object of a create-upload response.  `preuploadID = 0` and
`sliceSize = 0` model the Python falsy/missing values. -/
structure CreateData where
  reuse : Bool
  fileID : Nat
  preuploadID : Nat
  sliceSize : Nat
  servers : List String
deriving Repr, DecidableEq

/-- A create-upload response envelope. -/
structure CreateResp where
  code : Int
  data : Option CreateData
deriving Repr, DecidableEq

/-- One recorded call to `File2.slice`: the part number, the MD5 of the
part's own bytes, and the part's bytes.  Bytes are modelled as `Nat`s. -/
structure SliceCall where
  sliceNo : Nat
  sliceMD5 : String
  bytes : List Nat
deriving Repr, DecidableEq

/-- An `upload_complete` response: envelope code plus the `completed` /
`fileID` fields of its `data` (absent data modelled as `completed = false`,
`fileID = 0`). -/
structure CompleteResp where
  code : Int
  completed : Bool
  fileID : Nat
deriving Repr, DecidableEq

/-- Final outcome of `Uploader.upload_file_chunked`: the returned `data`
(its file id), a raised `RuntimeError` (create failure, missing fields or a
server-rejected completion), the raised `TimeoutError`, or `stillPolling`
when the modelled response script ends while the loop would poll on. -/
inductive UploadResult where
  | okData (fileID : Nat)
  | runtimeError
  | timeout
  | stillPolling
deriving Repr, DecidableEq

/-- Python `a or b` on an optional / falsy number. -/
def pyOrNat (a b : Nat) : Nat :=
  if a == 0 then b else a

/-- Python `a or b` on optional / falsy strings. -/
def pyOrStr (a : Option String) (b : Option String) : Option String :=
  match a with
  | some s => if s == "" then b else some s
  | none => b

/-- The part loop of `Uploader.upload_file_chunked` (Uploader.py lines
142-156, progress-bar branch identical): `for part_no in range(1,
total_parts + 1)` reads the next `real_slice` bytes, breaks on an empty
read, and otherwise calls `File2.slice` with the part number, the MD5 of
exactly that chunk, and the chunk. -/
def sliceLoop (md5 : List Nat → String) (fileBytes : List Nat) (s : Nat) :
    Nat → Nat → Nat → List SliceCall
  | 0, _, _ => []
  | r + 1, partNo, pos =>
    let chunk := (fileBytes.drop pos).take s
    if chunk.isEmpty then []
    else ⟨partNo, md5 chunk, chunk⟩ ::
      sliceLoop md5 fileBytes s r (partNo + 1) (pos + chunk.length)

/-- Outcome of the completion-polling loop. -/
inductive CompleteOutcome where
  | success (fileID : Nat)
  | raisedRuntime
  | raisedTimeout
  | pending
deriving Repr, DecidableEq

/-- The completion loop of `Uploader.upload_file_chunked` (Uploader.py lines
158-176): each iteration sleeps 2 s then reads one response; a code other
than 0 or 20103 raises `RuntimeError`; `completed` with a non-zero `fileID`
returns it; otherwise, once the elapsed time exceeds `poll_timeout_sec`,
`TimeoutError` is raised; else the loop polls again. -/
def upload_complete_loop (budget : Nat) : Nat → List CompleteResp → CompleteOutcome
  | _, [] => .pending
  | elapsed, r :: rest =>
    let elapsed2 := elapsed + 2
    if r.code ≠ 0 ∧ r.code ≠ 20103 then .raisedRuntime
    else if r.completed = true ∧ r.fileID ≠ 0 then .success r.fileID
    else if elapsed2 > budget then .raisedTimeout
    else upload_complete_loop budget elapsed2 rest

/-- Embedding of `Uploader.upload_file_chunked` (Uploader.py lines 39-176)
from the create call on, returning the trace of `File2.slice` calls together
with the outcome.  Create failure and missing fields raise `RuntimeError`;
an instant-reuse response (`reuse` true with a non-zero `fileID`) returns at
once; otherwise the slice size is `slice_size or data.sliceSize or 16 MiB`,
the upload server `server or servers[0]` (falsy → `RuntimeError`),
`total_parts = ceil(size / real_slice)`, the parts are uploaded by
`sliceLoop` and the completion loop finishes the job. -/
def upload_file_chunked (md5 : List Nat → String) (fileBytes : List Nat)
    (resp : CreateResp) (slice_size : Option Nat) (server : Option String)
    (poll_timeout_sec : Nat) (completeScript : List CompleteResp) :
    List SliceCall × UploadResult :=
  if resp.code ≠ 0 then ([], .runtimeError)
  else
    match resp.data with
    | none => ([], .runtimeError)
    | some data =>
      if data.reuse && data.fileID != 0 then ([], .okData data.fileID)
      else if data.preuploadID == 0 then ([], .runtimeError)
      else
        let real_slice := pyOrNat (slice_size.getD 0)
          (pyOrNat data.sliceSize (16 * 1024 * 1024))
        match pyOrStr server data.servers.head? with
        | none => ([], .runtimeError)
        | some srv =>
          if srv == "" then ([], .runtimeError)
          else
            let total_parts :=
              if real_slice != 0 then
                (fileBytes.length + real_slice - 1) / real_slice
              else 0
            let calls := sliceLoop md5 fileBytes real_slice total_parts 1 0
            match upload_complete_loop poll_timeout_sec 0 completeScript with
            | .success fid => (calls, .okData fid)
            | .raisedRuntime => (calls, .runtimeError)
            | .raisedTimeout => (calls, .timeout)
            | .pending => (calls, .stillPolling)

/-- The `data` of pan.py's create response (`_upload_common`): field access
is by subscript there, so the fields are always present. -/
structure PanCreateData where
  reuse : Bool
  fileID : Nat
  preuploadID : Nat
  sliceSize : Nat
deriving Repr, DecidableEq

/-- The `data` of pan.py's `upload_complete` / `upload_async_result`
responses. -/
structure PanCompleteData where
  completed : Bool
  asyncFlag : Bool
  fileID : Nat
deriving Repr, DecidableEq

/-- Outcome of pan.py's `_upload_common` after the create call: the returned
file id, the fall-through `return -1`, a raised `ValueError`, or
`polling` when the modelled async script ends while the unbounded
`while True` poll loop would go on — that loop has NO timeout. -/
inductive PanUploadResult where
  | okId (fileID : Nat)
  | minusOne
  | valueErr
  | polling
deriving Repr, DecidableEq

/-- The `while True` polling loop over `upload_async_result` of
`Pan123openAPI._upload_common` (pan.py lines 403-410): sleeps 2 s, polls,
returns only on `completed`; there is no timeout check of any kind. -/
def panAsyncLoop : List PanCompleteData → PanUploadResult
  | [] => .polling
  | r :: rest => if r.completed then .okId r.fileID else panAsyncLoop rest

/-- The completion phase of `Pan123openAPI._upload_common` (pan.py lines
392-411): return on `completed` (whatever the file id), poll forever on the
`async` flag, otherwise fall through to `return -1`. -/
def pan_complete_phase (first : PanCompleteData) (script : List PanCompleteData) :
    PanUploadResult :=
  if first.completed then .okId first.fileID
  else if first.asyncFlag then panAsyncLoop script
  else .minusOne

/-- The slice uploads issued by `Pan123openAPI._upload_common` (pan.py lines
345-390): `total_sliceNo = ceil(size / sliceSize)` parts, part `sliceNo`
(0-based) sent to `get_upload_url(preuploadID, sliceNo + 1)` carrying bytes
`[start, start + min(sliceSize, size - start))`. -/
def pan_slice_calls (fileBytes : List Nat) (s : Nat) : List (Nat × List Nat) :=
  (List.range ((fileBytes.length + s - 1) / s)).map
    (fun i => (i + 1,
      (fileBytes.drop (i * s)).take (min s (fileBytes.length - i * s))))

/-- Everything `Pan123openAPI._upload_common` transmits for one part
(`upload_slice` → `_upload_file_data_common`, pan.py lines 241-263 and
351-364): `get_upload_url(preuploadID, sliceNo)` with the 1-based part
index, then a `requests.put` of the raw chunk bytes to the returned
presigned URL.  The request has NO per-part MD5 field of any kind — the
only MD5 in `_upload_common` is the whole-file `etag` computed before the
create call (pan.py line 293). -/
structure PanSliceRequest where
  preuploadID : Nat
  sliceNo : Nat
  body : List Nat
deriving Repr, DecidableEq

/-- The complete per-part request trace of `Pan123openAPI._upload_common`'s
slice phase: `pan_slice_calls` tagged with the upload session's
`preuploadID` — part index and raw bytes are the whole payload. -/
def pan_slice_requests (fileBytes : List Nat) (s preuploadID : Nat) :
    List PanSliceRequest :=
  (pan_slice_calls fileBytes s).map (fun c => ⟨preuploadID, c.1, c.2⟩)

/-- Embedding of `Pan123openAPI._upload_common` from the create call on
(pan.py lines 334-411): non-zero code or empty data raises `ValueError`; a
truthy `reuse` returns the create call's `fileID` with no slice uploads; a
zero `sliceSize` is the `ZeroDivisionError` of `math.ceil(size / 0)`,
modelled as `valueErr`; otherwise all parts are uploaded and the completion
phase decides the outcome. -/
def pan_upload_common_after_create (fileBytes : List Nat) (resp : Int × Option PanCreateData)
    (completeFirst : PanCompleteData) (asyncScript : List PanCompleteData) :
    List (Nat × List Nat) × PanUploadResult :=
  if resp.1 ≠ 0 then ([], .valueErr)
  else
    match resp.2 with
    | none => ([], .valueErr)
    | some d =>
      if d.reuse then ([], .okId d.fileID)
      else if d.sliceSize == 0 then ([], .valueErr)
      else (pan_slice_calls fileBytes d.sliceSize,
        pan_complete_phase completeFirst asyncScript)

/-! ## DirectoryEnsurer (`FileList.ensure_remote_dir`) -/

/-- Embedding of `FileList._find_in_list_by_name` (FileList.py lines
609-620): the first entry with the wanted name that is not trashed and has
the wanted type (directory for `is_dir`), projected to its id. -/
def _find_in_list_by_name (file_list : List Entry) (name : String)
    (is_dir : Bool) : Option Nat :=
  let ctype : Nat := if is_dir then 1 else 0
  (file_list.find? (fun it =>
    it.filename == name && it.trashed == 0 && it.type == ctype)).map
      (fun it => it.fileId)

/-- Pagination loop of `FileList._get_file_list_v2_by_part` (FileList.py
lines 622-692) over a directory's page script: each page is
trashed-filtered by `File.list_v2`, scanned with `_find_in_list_by_name`,
and the loop stops (returning `none`) at the `-1` sentinel. -/
def getByPartGo (part : String) (is_dir : Bool) : List Page → Option Nat
  | [] => none
  | p :: rest =>
    let fl := (File_list_v2 p).fileList
    match _find_in_list_by_name fl part is_dir with
    | some fid => some fid
    | none =>
      if p.lastFileId == -1 then none
      else getByPartGo part is_dir rest

/-- Embedding of `FileList._get_file_list_v2_by_part`. -/
def _get_file_list_v2_by_part (backend : Nat → List Page) (parent_id : Nat)
    (part : String) (is_dir : Bool) : Option Nat :=
  getByPartGo part is_dir (backend parent_id)

/-- One recorded `File.mkdir` call of `ensure_remote_dir`: the parent it was
issued under, the segment name, and the `dirID` the backend returned. -/
structure CreateCall where
  parentID : Nat
  name : String
  dirID : Nat
deriving Repr, DecidableEq

/-- Segment loop of `FileList.ensure_remote_dir` (FileList.py lines
588-607): each segment is first looked up as a non-trashed directory under
the current parent via `_get_file_list_v2_by_part`; if found, its id becomes
the new parent and no create call is issued; if not, `File.mkdir` is called
(`mk` gives its returned `dirID`; `none` models a response without one,
which raises `RuntimeError`) and the returned id becomes the new parent.
The final parent id and the list of create calls are returned. -/
def ensureGo (backend : Nat → List Page) (mk : Nat → String → Option Nat) :
    List String → Nat → Except PyError (Nat × List CreateCall)
  | [], cp => .ok (cp, [])
  | part :: rest, cp =>
    match _get_file_list_v2_by_part backend cp part true with
    | some fid => ensureGo backend mk rest fid
    | none =>
      match mk cp part with
      | none => .error .runtimeError
      | some dirID =>
        (ensureGo backend mk rest dirID).map
          (fun r => (r.1, ⟨cp, part, dirID⟩ :: r.2))

/-- Embedding of `FileList.ensure_remote_dir` for a path given by its
non-empty segments (`strip("/").split("/")`): the empty path resolves to the
root id 0 with no calls. -/
def ensure_remote_dir (backend : Nat → List Page)
    (mk : Nat → String → Option Nat) (parts : List String) :
    Except PyError (Nat × List CreateCall) :=
  if parts.isEmpty then .ok (0, [])
  else ensureGo backend mk parts 0

/-- The parent chain an all-create run threads through `mk`: each created
directory's id is the parent of the next segment. -/
def chainFold (g : Nat → String → Nat) : Nat → List String → Nat
  | cp, [] => cp
  | cp, part :: rest => chainFold g (g cp part) rest

/-- The create calls of an all-create run: one per segment, parented at the
previous segment's created id. -/
def chainCalls (g : Nat → String → Nat) : Nat → List String → List CreateCall
  | _, [] => []
  | cp, part :: rest => ⟨cp, part, g cp part⟩ :: chainCalls g (g cp part) rest

/-! ## Bulk transfer aggregation (`Uploader.upload_folder`,
`Downloader.download_folder`) -/

/-- The inner `data` dict of one per-file upload response. -/
structure InnerData where
  fileID : Nat
  completed : Bool
  reuse : Bool
deriving Repr, DecidableEq

/-- The outcome of one per-file `_task` in `Uploader.upload_folder`
(Uploader.py lines 296-320): an exception caught and wrapped as
`{"error": msg}`, a response whose unwrapped inner data is a dict, or a
malformed (non-dict) response. -/
inductive TaskResult where
  | errored (msg : String)
  | response (inner : InnerData)
  | malformed
deriving Repr, DecidableEq

/-- One normalized per-file report entry (`{code, message, success, data}`,
Uploader.py lines 339-374): success means a non-zero file id that is
completed or reused; errors and malformed responses are failures. -/
structure NormEntry where
  code : Nat
  success : Bool
deriving Repr, DecidableEq

/-- The per-item normalization of `Uploader.upload_folder`. -/
def normalizeOne : TaskResult → NormEntry
  | .errored _ => ⟨1, false⟩
  | .malformed => ⟨1, false⟩
  | .response inner =>
    let s := inner.fileID != 0 && (inner.completed || inner.reuse)
    ⟨if s then 0 else 1, s⟩

/-- Python dict insertion on a key-ordered association list: overwrite in
place, else append. -/
def dictInsert (m : List (String × NormEntry)) (k : String) (v : NormEntry) :
    List (String × NormEntry) :=
  if m.any (fun q => q.1 == k) then
    m.map (fun q => if q.1 == k then (k, v) else q)
  else m ++ [(k, v)]

/-- The aggregate report of a bulk transfer. -/
structure FolderReport where
  total : Nat
  succeeded : Nat
  failed : Nat
  entries : List (String × NormEntry)
deriving Repr, DecidableEq

/-- Aggregation stage of `Uploader.upload_folder` (Uploader.py lines
339-389): normalize every `(path, result)` pair into the `normalized` dict,
then `total = len(normalized)`, `succeeded` counts the successes, `failed =
total - succeeded`. -/
def upload_folder_report (results : List (String × TaskResult)) : FolderReport :=
  let normalized := results.foldl
    (fun m kr => dictInsert m kr.1 (normalizeOne kr.2)) []
  let total := normalized.length
  let succeeded := (normalized.filter (fun q => q.2.success)).length
  { total := total, succeeded := succeeded, failed := total - succeeded,
    entries := normalized }

/-- Per-file outcome in the `download_folder` loop, in the order the code
tests them (Downloader.py lines 213-255): the local file already exists and
overwrite is off (skip, counted a success); no download URL (failure); a
completed download (success); an exception caught by the per-item guard
(failure). -/
inductive DownOutcome where
  | skippedExisting
  | noUrl
  | downloaded
  | exc (msg : String)
deriving Repr, DecidableEq

/-- Whether a per-file outcome increments `succeeded`. -/
def downSucceeds : DownOutcome → Bool
  | .skippedExisting => true
  | .downloaded => true
  | .noUrl => false
  | .exc _ => false

/-- The per-file status string recorded in `results`. -/
def downStatus : DownOutcome → String
  | .skippedExisting => "skipped"
  | .downloaded => "success"
  | .noUrl => "failed"
  | .exc _ => "failed"

/-- The sequential loop of `Downloader.download_folder` (lines 213-255):
one `(succeeded, failed, results)` accumulation, one status entry per file,
exceptions recovered per item so the loop always reaches the next file. -/
def download_folder_loop : List (AnnEntry × DownOutcome) →
    Nat × Nat × List (String × String)
  | [] => (0, 0, [])
  | (f, o) :: rest =>
    let r := download_folder_loop rest
    if downSucceeds o then (r.1 + 1, r.2.1, (f.relative_path, downStatus o) :: r.2.2)
    else (r.1, r.2.1 + 1, (f.relative_path, downStatus o) :: r.2.2)

/-- The statistics dict `download_folder` returns: `total`, `succeeded`,
`failed` and the per-file status entries. -/
structure DownReport where
  total : Nat
  succeeded : Nat
  failed : Nat
  files : List (String × String)
deriving Repr, DecidableEq

/-- Report stage of `Downloader.download_folder` (lines 191-268): keep only
non-trashed files (`type == 0 and trashed == 0`), short-circuit an empty
selection, else run the loop and report `total`, `succeeded`, `failed` and
the per-file entries. -/
def download_folder_report (file_list : List AnnEntry)
    (outcomes : List DownOutcome) : DownReport :=
  let files := file_list.filter (fun f => f.type == 0 && f.trashed == 0)
  if files.isEmpty then ⟨0, 0, 0, []⟩
  else
    let r := download_folder_loop (files.zip outcomes)
    ⟨files.length, r.1, r.2.1, r.2.2⟩

/-- Five per-file upload outcomes, exactly one of which (a simulated
network error) fails. -/
def c9Results : List (String × TaskResult) :=
  [("d/f1.txt", .response ⟨11, true, false⟩),
   ("d/f2.txt", .response ⟨12, false, true⟩),
   ("d/f3.txt", .errored "network error"),
   ("d/f4.txt", .response ⟨14, true, false⟩),
   ("d/f5.txt", .response ⟨15, true, true⟩)]

/-- Five non-trashed remote files of a downloaded folder. -/
def c9Files : List AnnEntry :=
  [⟨⟨31, "f1.txt", 0, 0, "e1"⟩, "/d/f1.txt", "f1.txt"⟩,
   ⟨⟨32, "f2.txt", 0, 0, "e2"⟩, "/d/f2.txt", "f2.txt"⟩,
   ⟨⟨33, "f3.txt", 0, 0, "e3"⟩, "/d/f3.txt", "f3.txt"⟩,
   ⟨⟨34, "f4.txt", 0, 0, "e4"⟩, "/d/f4.txt", "f4.txt"⟩,
   ⟨⟨35, "f5.txt", 0, 0, "e5"⟩, "/d/f5.txt", "f5.txt"⟩]

/-- Their per-file download outcomes: one simulated network error. -/
def c9Outcomes : List DownOutcome :=
  [.downloaded, .downloaded, .exc "network error", .skippedExisting, .downloaded]

/-! ## Theorems -/

theorem getFileListV2Go_cons (p : Page) (rest : List Page) (isFirst : Bool)
    (acc : List Entry) :
    getFileListV2Go (p :: rest) isFirst acc =
      (if (File_list_v2 p).fileList.isEmpty && isFirst then acc
       else if p.lastFileId == -1 then acc ++ (File_list_v2 p).fileList
       else getFileListV2Go rest false (acc ++ (File_list_v2 p).fileList)) := rfl

theorem getFileListV2Go_notFirst (pages : List Page) :
    ∀ (acc : List Entry) (plast : Page),
      pages.getLast? = some plast → plast.lastFileId = -1 →
      (∀ p ∈ pages.dropLast, p.lastFileId ≠ -1) →
      getFileListV2Go pages false acc = acc ++ (pages.map trashedFilter).flatten := by
  induction pages with
  | nil => intro acc plast h; simp at h
  | cons p rest ih =>
    intro acc plast hlast hm1 hmid
    cases rest with
    | nil =>
      simp only [List.getLast?_singleton, Option.some.injEq] at hlast
      subst hlast
      rw [getFileListV2Go_cons]
      simp [hm1, trashedFilter]
    | cons q rest' =>
      have hpne : p.lastFileId ≠ -1 := by
        apply hmid
        simp [List.dropLast]
      have hlast' : (q :: rest').getLast? = some plast := by
        rwa [List.getLast?_cons_cons] at hlast
      have hmid' : ∀ r ∈ (q :: rest').dropLast, r.lastFileId ≠ -1 := by
        intro r hr
        apply hmid
        rw [List.dropLast_cons₂]
        exact List.mem_cons_of_mem _ hr
      have hbeq : (p.lastFileId == (-1 : Int)) = false := by
        simp [hpne]
      rw [getFileListV2Go_cons]
      simp only [hbeq, Bool.and_false, Bool.false_eq_true, if_false]
      rw [ih _ plast hlast' hm1 hmid']
      simp [trashedFilter, List.append_assoc]

/-- C1 (amended).  For a backend page script whose final page carries the
`lastFileId = -1` sentinel (and no earlier page does), and whose FIRST page
still contains at least one non-trashed entry, `get_file_list_v2` returns
exactly the concatenation of all pages' trashed-filtered `fileList` entries in
backend order; and `File.list_v2` excludes trashed entries by default,
returning them unchanged only when `isTrashed = true` is requested
explicitly. -/
theorem get_file_list_v2_concat_of_first_page_nonempty
    (p0 : Page) (rest : List Page) (plast : Page)
    (hlast : (p0 :: rest).getLast? = some plast)
    (hm1 : plast.lastFileId = -1)
    (hmid : ∀ p ∈ (p0 :: rest).dropLast, p.lastFileId ≠ -1)
    (hfst : trashedFilter p0 ≠ []) :
    get_file_list_v2 (p0 :: rest) = ((p0 :: rest).map trashedFilter).flatten ∧
      (∀ q : Page, File_list_v2 q true = q) := by
  constructor
  · have hfstE : (File_list_v2 p0).fileList.isEmpty = false := by
      rw [Bool.eq_false_iff]
      intro hE
      exact hfst (List.isEmpty_iff.mp hE)
    rw [get_file_list_v2, getFileListV2Go_cons]
    simp only [hfstE, Bool.false_and, Bool.false_eq_true, if_false]
    cases rest with
    | nil =>
      simp only [List.getLast?_singleton, Option.some.injEq] at hlast
      subst hlast
      simp [hm1, trashedFilter]
    | cons q rest' =>
      have hpne : p0.lastFileId ≠ -1 := by
        apply hmid
        simp [List.dropLast]
      have hbeq : (p0.lastFileId == (-1 : Int)) = false := by simp [hpne]
      have hlast' : (q :: rest').getLast? = some plast := by
        rwa [List.getLast?_cons_cons] at hlast
      have hmid' : ∀ r ∈ (q :: rest').dropLast, r.lastFileId ≠ -1 := by
        intro r hr
        apply hmid
        rw [List.dropLast_cons₂]
        exact List.mem_cons_of_mem _ hr
      simp only [hbeq, Bool.false_eq_true, if_false]
      rw [getFileListV2Go_notFirst _ _ plast hlast' hm1 hmid']
      simp [trashedFilter]
  · intro q
    rfl

/-- Closed witness for C1: a two-page script (cursor 3, then sentinel -1)
whose entries are returned as the concatenation of the filtered pages. -/
theorem get_file_list_v2_concat_witness :
    get_file_list_v2
        [⟨[⟨3, "a.txt", 0, 0, "e3"⟩], 3⟩, ⟨[⟨7, "b.txt", 0, 0, "e7"⟩], -1⟩] =
      (([⟨[⟨3, "a.txt", 0, 0, "e3"⟩], 3⟩,
         ⟨[⟨7, "b.txt", 0, 0, "e7"⟩], -1⟩] : List Page).map trashedFilter).flatten :=
  (get_file_list_v2_concat_of_first_page_nonempty
      ⟨[⟨3, "a.txt", 0, 0, "e3"⟩], 3⟩ [⟨[⟨7, "b.txt", 0, 0, "e7"⟩], -1⟩]
      ⟨[⟨7, "b.txt", 0, 0, "e7"⟩], -1⟩ (by decide) (by decide)
      (by decide) (by decide)).1

/-- C1 counterexample: on `c1Pages` — a page sequence ending with the
`lastFileId = -1` sentinel — `get_file_list_v2` returns `[]`, NOT the
concatenation of the pages' (trashed-filtered) entries: because the first
page's filtered `fileList` is empty the loop treats the directory as empty and
stops before ever seeing the sentinel. -/
theorem get_file_list_v2_c1_counterexample :
    (c1Pages.getLast?.map Page.lastFileId = some (-1)) ∧
      (∀ p ∈ c1Pages.dropLast, p.lastFileId ≠ -1) ∧
      (c1Pages.map trashedFilter).flatten = [⟨7, "doc.txt", 0, 0, "e7"⟩] ∧
      get_file_list_v2 c1Pages = [] ∧
      get_file_list_v2 c1Pages ≠ (c1Pages.map trashedFilter).flatten := by
  refine ⟨rfl, by decide, rfl, rfl, by decide⟩

/-- The `List.find?` of a predicate returns the element when it is the
unique element of the list satisfying the predicate. -/
theorem find?_eq_of_mem_of_unique {α : Type} (p : α → Bool) :
    ∀ (l : List α) (a : α), a ∈ l → p a = true →
      (∀ b ∈ l, p b = true → b = a) → l.find? p = some a := by
  intro l
  induction l with
  | nil => intro a ha; simp at ha
  | cons x xs ih =>
    intro a ha hpa huniq
    by_cases hx : p x = true
    · have : x = a := huniq x (List.mem_cons_self x xs) hx
      subst this
      simp [List.find?, hx]
    · have hxa : a ≠ x := fun h => hx (h ▸ hpa)
      have ha' : a ∈ xs := by
        rcases List.mem_cons.mp ha with h | h
        · exact absurd h hxa
        · exact h
      have hbx : p x = false := Bool.eq_false_iff.mpr hx
      simp only [List.find?, hbx]
      exact ih a ha' hpa (fun b hb hpb => huniq b (List.mem_cons_of_mem _ hb) hpb)

theorem segMatch_true_iff (name : String) (isLast is_dir : Bool) (item : Entry) :
    segMatch name isLast is_dir item = true ↔
      item.filename = name ∧ item.trashed = 0 ∧
        item.type = (if isLast then (if is_dir then 1 else 0) else 1) := by
  cases isLast <;> cases is_dir <;> simp [segMatch, and_assoc]

theorem dlFindLoop_single_page (name : String) (isLast is_dir : Bool)
    (entries : List Entry) (a : Entry) (ha : a ∈ entries)
    (hm : segMatch name isLast is_dir a = true)
    (hu : ∀ b ∈ entries, segMatch name isLast is_dir b = true → b = a) :
    dlFindLoop name isLast is_dir [⟨entries, -1⟩] = some a := by
  have hat : a.trashed = 0 := ((segMatch_true_iff _ _ _ _).mp hm).2.1
  have hafl : a ∈ (File_list_v2 ⟨entries, -1⟩).fileList := by
    simp only [File_list_v2, if_neg Bool.false_ne_true, List.mem_filter]
    exact ⟨ha, by simp [hat]⟩
  have hne : (File_list_v2 ⟨entries, -1⟩).fileList.isEmpty = false := by
    rw [Bool.eq_false_iff]
    intro hE
    rw [List.isEmpty_iff.mp hE] at hafl
    simp at hafl
  have hfind : (File_list_v2 ⟨entries, -1⟩).fileList.find?
      (segMatch name isLast is_dir) = some a := by
    apply find?_eq_of_mem_of_unique _ _ a hafl hm
    intro b hb hpb
    have hbent : b ∈ entries := by
      simp only [File_list_v2, if_neg Bool.false_ne_true, List.mem_filter] at hb
      exact hb.1
    exact hu b hbent hpb
  simp [dlFindLoop, hne, hfind]

theorem panFindLoop_single_page (name : String) (isLast is_dir : Bool)
    (entries : List Entry) (a : Entry) (ha : a ∈ entries)
    (hm : segMatch name isLast is_dir a = true)
    (hu : ∀ b ∈ entries, segMatch name isLast is_dir b = true → b = a) :
    panFindLoop name isLast is_dir [⟨entries, -1⟩] = some a := by
  have hne : (Page.mk entries (-1)).fileList.isEmpty = false := by
    rw [Bool.eq_false_iff]
    intro hE
    have h2 : entries = [] := List.isEmpty_iff.mp hE
    rw [h2] at ha
    simp at ha
  have hfind : entries.find? (segMatch name isLast is_dir) = some a :=
    find?_eq_of_mem_of_unique _ _ a ha hm hu
  simp [panFindLoop, hne, hfind]

/-- C2 (amended).  In a directory holding both a non-trashed File `fx` and a
non-trashed Directory `dx` named `x` (each the unique non-trashed entry of
its type with that name), the segment scan resolves by type: the gate-free
`Downloader._find_file_by_path` returns the Directory's id with
`is_dir = true` and the File's id with `is_dir = false`; for a non-last
segment only the Directory matches, whatever the flag; and
`Pan123openAPI.find_file_id_by_path` behaves the same for
`is_dir = true`, but for a suffix-less last segment such as `"x"` with
`is_dir = false` it raises `ValueError` at its syntax gate before any
lookup, instead of returning the File's id as the claim states. -/
theorem resolve_type_disambiguation
    (backend : Nat → List Page) (x : String) (entries : List Entry)
    (cid : Nat) (dx fx : Entry)
    (hb : backend cid = [⟨entries, -1⟩])
    (hdm : dx ∈ entries) (hdn : dx.filename = x) (hdt : dx.trashed = 0)
    (hdty : dx.type = 1)
    (hfm : fx ∈ entries) (hfn : fx.filename = x) (hft : fx.trashed = 0)
    (hfty : fx.type = 0)
    (hud : ∀ b ∈ entries, b.filename = x → b.trashed = 0 → b.type = 1 → b = dx)
    (huf : ∀ b ∈ entries, b.filename = x → b.trashed = 0 → b.type = 0 → b = fx)
    (hsfx : pyHasSuffix x = false) :
    (∀ citem, dlWalk backend true [x] cid citem = some (dx.fileId, some dx)) ∧
    (∀ citem, dlWalk backend false [x] cid citem = some (fx.fileId, some fx)) ∧
    (∀ flag, dlFindLoop x false flag (backend cid) = some dx) ∧
    (∀ flag, panFindLoop x false flag (backend cid) = some dx) ∧
    (∀ citem, panWalk backend true [x] cid citem = some (dx.fileId, dx)) ∧
    (find_file_id_by_path backend [x] false = .error .valueError) := by
  have hmd : segMatch x true true dx = true :=
    (segMatch_true_iff _ _ _ _).mpr ⟨hdn, hdt, by simpa using hdty⟩
  have hmf : segMatch x true false fx = true :=
    (segMatch_true_iff _ _ _ _).mpr ⟨hfn, hft, by simpa using hfty⟩
  have hud' : ∀ b ∈ entries, segMatch x true true b = true → b = dx := by
    intro b hbm hsb
    obtain ⟨h1, h2, h3⟩ := (segMatch_true_iff _ _ _ _).mp hsb
    exact hud b hbm h1 h2 (by simpa using h3)
  have huf' : ∀ b ∈ entries, segMatch x true false b = true → b = fx := by
    intro b hbm hsb
    obtain ⟨h1, h2, h3⟩ := (segMatch_true_iff _ _ _ _).mp hsb
    exact huf b hbm h1 h2 (by simpa using h3)
  have hmdMid : ∀ flag, segMatch x false flag dx = true := by
    intro flag
    exact (segMatch_true_iff _ _ _ _).mpr ⟨hdn, hdt, by simpa using hdty⟩
  have hudMid : ∀ flag, ∀ b ∈ entries, segMatch x false flag b = true → b = dx := by
    intro flag b hbm hsb
    obtain ⟨h1, h2, h3⟩ := (segMatch_true_iff _ _ _ _).mp hsb
    exact hud b hbm h1 h2 (by simpa using h3)
  refine ⟨?_, ?_, ?_, ?_, ?_, ?_⟩
  · intro citem
    have : dlFindLoop x true true (backend cid) = some dx := by
      rw [hb]; exact dlFindLoop_single_page x true true entries dx hdm hmd hud'
    simp [dlWalk, this]
  · intro citem
    have : dlFindLoop x true false (backend cid) = some fx := by
      rw [hb]; exact dlFindLoop_single_page x true false entries fx hfm hmf huf'
    simp [dlWalk, this]
  · intro flag
    rw [hb]
    exact dlFindLoop_single_page x false flag entries dx hdm (hmdMid flag) (hudMid flag)
  · intro flag
    rw [hb]
    exact panFindLoop_single_page x false flag entries dx hdm (hmdMid flag) (hudMid flag)
  · intro citem
    have : panFindLoop x true true (backend cid) = some dx := by
      rw [hb]; exact panFindLoop_single_page x true true entries dx hdm hmd hud'
    simp [panWalk, this]
  · simp [find_file_id_by_path, hsfx]

/-- C2 counterexample: with both a File (id 21) and a Directory (id 10)
named `"x"` in the root, `find_file_id_by_path` with `expectDirectory =
false` does NOT return the File's id — the suffix gate raises `ValueError`
first ("x" has no dotted suffix) — while the gate-free scan of
`Downloader._find_file_by_path` does resolve the File. -/
theorem resolve_x_as_file_counterexample :
    find_file_id_by_path c2Backend ["x"] false = .error .valueError ∧
    (Except.error PyError.valueError ≠
      (Except.ok (some (21, c2FileEntry)) : Except PyError (Option (Nat × Entry)))) ∧
    downloader_find_file_by_path c2Backend ["x"] false = some (21, some c2FileEntry) := by
  refine ⟨rfl, fun h => Except.noConfusion h, rfl⟩

/-- Closed witness for C2: on the concrete two-entry directory the
Downloader scan resolves `"x"` to the Directory (id 10) with
`is_dir = true` and to the File (id 21) with `is_dir = false`. -/
theorem resolve_type_disambiguation_witness :
    dlWalk c2Backend true ["x"] 0 none = some (10, some c2DirEntry) ∧
    dlWalk c2Backend false ["x"] 0 none = some (21, some c2FileEntry) :=
  ⟨(resolve_type_disambiguation c2Backend "x" [c2FileEntry, c2DirEntry] 0
      c2DirEntry c2FileEntry rfl (by decide) (by decide) (by decide) (by decide)
      (by decide) (by decide) (by decide) (by decide) (by decide) (by decide)
      (by decide)).1 none,
   (resolve_type_disambiguation c2Backend "x" [c2FileEntry, c2DirEntry] 0
      c2DirEntry c2FileEntry rfl (by decide) (by decide) (by decide) (by decide)
      (by decide) (by decide) (by decide) (by decide) (by decide) (by decide)
      (by decide)).2.1 none⟩

/-- C10 (amended).  The suffix gates fire exactly as the claim's two precise
clauses state: a path whose final component has a non-empty pathlib suffix
cannot be requested as a directory, and one without a suffix cannot be
requested as a file; `Downloader.download_file` rejects suffix-less paths
and `Downloader.download_folder` rejects suffixed paths, all before any
backend call.  (The claim's gloss that a directory whose name merely
*contains* a dot can never be resolved is what fails — see the
counterexample.) -/
theorem path_suffix_gates (backend : Nat → List Page) (parts : List String) :
    (pyHasSuffix (parts.getLastD "") = true →
        find_file_id_by_path backend parts true = .error .valueError) ∧
    (pyHasSuffix (parts.getLastD "") = false →
        find_file_id_by_path backend parts false = .error .valueError) ∧
    (pyHasSuffix (parts.getLastD "") = false →
        downloader_download_file_resolve backend parts = .error .valueError) ∧
    (pyHasSuffix (parts.getLastD "") = true →
        downloader_download_folder_resolve backend parts = .error .valueError) := by
  refine ⟨fun h => ?_, fun h => ?_, fun h => ?_, fun h => ?_⟩ <;>
    (rw [List.getLastD_eq_getLast?] at h
     simp [find_file_id_by_path, downloader_download_file_resolve,
       downloader_download_folder_resolve, h])

/-- Closed witness for C10: the four gates at concrete paths. -/
theorem path_suffix_gates_witness :
    find_file_id_by_path c10Backend ["a.txt"] true = .error .valueError ∧
    find_file_id_by_path c10Backend ["docs"] false = .error .valueError ∧
    downloader_download_file_resolve c10Backend ["docs"] = .error .valueError ∧
    downloader_download_folder_resolve c10Backend ["a.txt"] = .error .valueError :=
  ⟨(path_suffix_gates c10Backend ["a.txt"]).1 (by decide),
   (path_suffix_gates c10Backend ["docs"]).2.1 (by decide),
   (path_suffix_gates c10Backend ["docs"]).2.2.1 (by decide),
   (path_suffix_gates c10Backend ["a.txt"]).2.2.2 (by decide)⟩

/-- C10 counterexample: `".config"` contains a dot, yet its pathlib suffix
is empty (leading dot), so the gates let it through: the directory IS
resolvable by `find_file_id_by_path` and transferable through
`Downloader.download_folder`'s entry gate — refuting the claim's "a
directory whose name contains a dot can never be resolved or transferred
through these entry points". -/
theorem dotted_dirname_resolvable_counterexample :
    pyHasSuffix ".config" = false ∧
    find_file_id_by_path c10Backend [".config"] true = .ok (some (5, c10Entry)) ∧
    downloader_download_folder_resolve c10Backend [".config"] = .ok (some 5) := by
  refine ⟨by decide, rfl, rfl⟩

/-- C3 (amended).  For a directory served as a single page,
`Pan123openAPI._get_file_list` returns, entry by entry in backend order, the
annotated entry followed — when it is a directory — by the full recursive
walk of that directory: so every directory entry appears itself AND all of
its descendants appear, and file entries are leaves.  (The claim fails for
`Downloader._get_file_list`, which never appends directory entries — see the
counterexample.) -/
theorem pan_get_file_list_yields_dirs_and_descendants
    (backend : Nat → List Page) (base : String) (fuel pid : Nat) (cur : String)
    (entries : List Entry) (hb : backend pid = [⟨entries, -1⟩]) :
    pan_get_file_list backend base (fuel + 1) pid cur =
      (entries.map (panAnnotate cur base)).flatMap
        (fun it => if it.type == 1 then
            it :: pan_get_file_list backend base fuel it.fileId it.full_path
          else [it]) ∧
    (∀ e ∈ entries,
      panAnnotate cur base e ∈ pan_get_file_list backend base (fuel + 1) pid cur ∧
      (e.type = 1 →
        ∀ x ∈ pan_get_file_list backend base fuel e.fileId
            (panAnnotate cur base e).full_path,
          x ∈ pan_get_file_list backend base (fuel + 1) pid cur)) := by
  have heq : pan_get_file_list backend base (fuel + 1) pid cur =
      (entries.map (panAnnotate cur base)).flatMap
        (fun it => if it.type == 1 then
            it :: pan_get_file_list backend base fuel it.fileId it.full_path
          else [it]) := by
    rw [pan_get_file_list, hb]
    cases entries with
    | nil => simp [panGFLGo]
    | cons e es =>
      simp [panGFLGo]
  refine ⟨heq, ?_⟩
  intro e he
  have hmm : panAnnotate cur base e ∈ entries.map (panAnnotate cur base) :=
    List.mem_map_of_mem _ he
  have htype : (panAnnotate cur base e).type = e.type := rfl
  have hfid : (panAnnotate cur base e).fileId = e.fileId := rfl
  constructor
  · rw [heq]
    rw [List.mem_flatMap]
    refine ⟨panAnnotate cur base e, hmm, ?_⟩
    by_cases ht : (panAnnotate cur base e).type == 1
    · simp [ht]
    · simp [ht]
  · intro hdir x hx
    rw [heq]
    rw [List.mem_flatMap]
    refine ⟨panAnnotate cur base e, hmm, ?_⟩
    have ht : ((panAnnotate cur base e).type == 1) = true := by
      rw [htype, hdir]; rfl
    rw [if_pos ht]
    rw [← hfid] at hx
    exact List.mem_cons_of_mem _ hx

/-- C3 counterexample: walking directory 1, `Downloader._get_file_list`
returns only the file (id 3) — the directory entry `sub` (id 2) that was
walked never appears in the output, refuting the claim for that cited
function; `Pan123openAPI._get_file_list` on the same tree returns both. -/
theorem downloader_get_file_list_drops_dirs_counterexample :
    (downloader_get_file_list c3Backend "/r" 5 1 "/r").map (fun a => a.fileId) = [3] ∧
    (pan_get_file_list c3Backend "/r" 5 1 "/r").map (fun a => a.fileId) = [2, 3] := by
  refine ⟨rfl, rfl⟩

/-- Closed witness for C3: on the concrete two-level tree the pan walk
yields the annotated directory entry followed by its recursive contents. -/
theorem pan_get_file_list_yields_witness :
    pan_get_file_list c3Backend "/r" 5 1 "/r" =
      ([c3DirEntry].map (panAnnotate "/r" "/r")).flatMap
        (fun it => if it.type == 1 then
            it :: pan_get_file_list c3Backend "/r" 4 it.fileId it.full_path
          else [it]) :=
  (pan_get_file_list_yields_dirs_and_descendants c3Backend "/r" 4 1 "/r"
      [c3DirEntry] rfl).1

theorem recursive_list_v1_selfloop_aux :
    ∀ (n : Nat) (cur : String) (depth : Nat), 1001 - depth = n →
      recursive_list_v1 selfLoopBackend 1 cur depth =
        List.replicate n (WalkEvent.saved 1 1) ++ [WalkEvent.depthError 1] := by
  intro n
  induction n with
  | zero =>
    intro cur depth hd
    have hgt : depth > 1000 := by omega
    rw [recursive_list_v1, if_pos hgt]
    simp
  | succ k ih =>
    intro cur depth hd
    have hle : ¬ depth > 1000 := by omega
    rw [recursive_list_v1, if_neg hle]
    have hrec := ih (v1FullPath cur "d") (depth + 1) (by omega)
    simp only [selfLoopBackend]
    simp only [List.filter, List.flatMap_cons, List.flatMap_nil, List.length_cons,
      List.length_nil]
    norm_num
    rw [hrec]
    rw [List.replicate_succ]
    simp

/-- C4.  The recursion guard of the recursive listers: (1) a `v1` branch
whose depth exceeds the ceiling of 1000 is abandoned with just the logged
error event and a normal return; (2) below the ceiling the walk emits its
own save and then, independently, the full event list of every child branch
— so one branch hitting the ceiling cannot abort a sibling's events; (3) on
the cyclic self-referential backend the walk from the root terminates with
exactly 1001 saves and one depth error; (4) a `v2` `process_directory` task
beyond the ceiling produces the error event and no child tasks. -/
theorem recursion_depth_ceiling
    (backend : Nat → List Entry) (pid : Nat) (cur : String) (depth : Nat) :
    (depth > 1000 →
      recursive_list_v1 backend pid cur depth = [.depthError pid]) ∧
    (depth ≤ 1000 →
      recursive_list_v1 backend pid cur depth =
        .saved pid (backend pid).length ::
          ((backend pid).filter (fun it => it.type == 1)).flatMap
            (fun it =>
              if it.fileId == 0 || it.filename == "" then []
              else recursive_list_v1 backend it.fileId
                (v1FullPath cur it.filename) (depth + 1))) ∧
    (depth ≤ 1000 →
      ∀ it ∈ (backend pid).filter (fun it => it.type == 1),
        it.fileId ≠ 0 → it.filename ≠ "" →
        ∀ ev ∈ recursive_list_v1 backend it.fileId (v1FullPath cur it.filename)
            (depth + 1),
          ev ∈ recursive_list_v1 backend pid cur depth) ∧
    (recursive_list_v1 selfLoopBackend 1 "" 0 =
      List.replicate 1001 (WalkEvent.saved 1 1) ++ [WalkEvent.depthError 1]) ∧
    (depth > 1000 →
      ∀ (backend2 : Nat → List Page) (path : String),
        process_directory_v2 backend2 pid path depth = ([.depthError pid], [])) := by
  refine ⟨?_, ?_, ?_, ?_, ?_⟩
  · intro h
    rw [recursive_list_v1, if_pos h]
  · intro h
    rw [recursive_list_v1, if_neg (by omega)]
  · intro h it hmem hid hname ev hev
    rw [recursive_list_v1, if_neg (by omega)]
    apply List.mem_cons_of_mem
    rw [List.mem_flatMap]
    refine ⟨it, hmem, ?_⟩
    have hc : (it.fileId == 0 || it.filename == "") = false := by
      simp [hid, hname]
    rw [if_neg (by simp [hc])]
    exact hev
  · exact recursive_list_v1_selfloop_aux 1001 "" 0 rfl
  · intro h backend2 path
    rw [process_directory_v2, if_pos h]

/-- Closed witness for C4: the guard at depth 1001 and the unfolding at
depth 1000 on the self-loop backend, and the v2 task guard. -/
theorem recursion_depth_ceiling_witness :
    recursive_list_v1 selfLoopBackend 1 "" 1001 = [.depthError 1] ∧
    recursive_list_v1 selfLoopBackend 1 "" 1000 =
      .saved 1 (selfLoopBackend 1).length ::
        ((selfLoopBackend 1).filter (fun it => it.type == 1)).flatMap
          (fun it =>
            if it.fileId == 0 || it.filename == "" then []
            else recursive_list_v1 selfLoopBackend it.fileId
              (v1FullPath "" it.filename) 1001) ∧
    process_directory_v2 (fun _ => [⟨[], -1⟩]) 7 "/p" 1001 = ([.depthError 7], []) :=
  ⟨(recursion_depth_ceiling selfLoopBackend 1 "" 1001).1 (by omega),
   (recursion_depth_ceiling selfLoopBackend 1 "" 1000).2.1 (by omega),
   (recursion_depth_ceiling selfLoopBackend 7 "" 1001).2.2.2.2 (by omega)
     (fun _ => [⟨[], -1⟩]) "/p"⟩

/-- C5.  An instant-reuse create response (content-addressed dedup hit:
`reuse` true with the server-returned file id) makes the upload return
success with exactly that file id and an empty slice-upload trace — zero
part uploads and zero byte transfers — in both `Uploader.upload_file_chunked`
and `Pan123openAPI._upload_common`. -/
theorem instant_reuse_short_circuit
    (md5 : List Nat → String) (fileBytes : List Nat) (d : CreateData)
    (ss : Option Nat) (server : Option String) (budget : Nat)
    (script : List CompleteResp)
    (pd : PanCreateData) (pf : PanCompleteData) (ascript : List PanCompleteData)
    (hreuse : d.reuse = true) (hfid : d.fileID ≠ 0) (hpreuse : pd.reuse = true) :
    upload_file_chunked md5 fileBytes ⟨0, some d⟩ ss server budget script
      = ([], .okData d.fileID) ∧
    pan_upload_common_after_create fileBytes (0, some pd) pf ascript
      = ([], .okId pd.fileID) := by
  constructor
  · simp [upload_file_chunked, hreuse, hfid]
  · simp [pan_upload_common_after_create, hpreuse]

/-- Closed witness for C5: a concrete dedup-hit create response short
circuits with file id 99 and no slice calls. -/
theorem instant_reuse_short_circuit_witness :
    upload_file_chunked (fun _ => "m") [1, 2, 3]
        ⟨0, some ⟨true, 99, 0, 4, []⟩⟩ none none 300 []
      = ([], .okData 99) ∧
    pan_upload_common_after_create [1, 2, 3] (0, some ⟨true, 99, 7, 4⟩)
        ⟨false, false, 0⟩ []
      = ([], .okId 99) := by
  have h := instant_reuse_short_circuit (fun _ => "m") [1, 2, 3]
    ⟨true, 99, 0, 4, []⟩ none none 300 [] ⟨true, 99, 7, 4⟩ ⟨false, false, 0⟩ []
    rfl (by decide) rfl
  exact h

theorem mul_lt_of_lt_ceilDivNat {s len i : Nat} (hs : s ≠ 0)
    (h : i < (len + s - 1) / s) : i * s < len := by
  by_contra hle
  push_neg at hle
  have hmul : (i + 1) * s = i * s + s := Nat.succ_mul i s
  have hlt : len + s - 1 < (i + 1) * s := by omega
  have : (len + s - 1) / s < i + 1 :=
    (Nat.div_lt_iff_lt_mul (Nat.pos_of_ne_zero hs)).mpr hlt
  omega

theorem range_succ_map {α : Type} (f : Nat → α) (k : Nat) :
    (List.range (k + 1)).map f = f 0 :: (List.range k).map (fun j => f (j + 1)) := by
  rw [List.range_succ_eq_map, List.map_cons, List.map_map]
  rfl

theorem sliceLoop_succ (md5 : List Nat → String) (l : List Nat)
    (s r partNo pos : Nat) :
    sliceLoop md5 l s (r + 1) partNo pos =
      (if ((l.drop pos).take s).isEmpty then []
       else ⟨partNo, md5 ((l.drop pos).take s), (l.drop pos).take s⟩ ::
         sliceLoop md5 l s r (partNo + 1)
           (pos + ((l.drop pos).take s).length)) := rfl

theorem sliceLoop_eq (md5 : List Nat → String) (l : List Nat) (s : Nat)
    (hs : s ≠ 0) :
    ∀ (k i : Nat), i + k = (l.length + s - 1) / s →
      sliceLoop md5 l s k (i + 1) (i * s) =
        (List.range k).map (fun j =>
          ⟨i + j + 1, md5 ((l.drop ((i + j) * s)).take s),
            (l.drop ((i + j) * s)).take s⟩) := by
  intro k
  induction k with
  | zero => intro i h; rfl
  | succ k' ih =>
    intro i h
    have hi_lt : i < (l.length + s - 1) / s := by omega
    have hpos : i * s < l.length := mul_lt_of_lt_ceilDivNat hs hi_lt
    have hclen : ((l.drop (i * s)).take s).length = min s (l.length - i * s) := by
      simp [List.length_take, List.length_drop]
    have hne : ((l.drop (i * s)).take s).isEmpty = false := by
      rw [Bool.eq_false_iff]
      intro hE
      have h0 : (l.drop (i * s)).take s = [] := List.isEmpty_iff.mp hE
      rw [h0] at hclen
      simp at hclen
      omega
    rw [sliceLoop_succ]
    simp only [hne, Bool.false_eq_true, if_false]
    cases k' with
    | zero =>
      conv_rhs => rw [range_succ_map]
      simp [sliceLoop]
    | succ k'' =>
      have hi1_lt : i + 1 < (l.length + s - 1) / s := by omega
      have hpos1 : (i + 1) * s < l.length := mul_lt_of_lt_ceilDivNat hs hi1_lt
      have hmul : (i + 1) * s = i * s + s := Nat.succ_mul i s
      have hfull : ((l.drop (i * s)).take s).length = s := by
        rw [hclen]
        omega
      have hrec := ih (i + 1) (by omega)
      rw [hfull]
      have hposrw : i * s + s = (i + 1) * s := hmul.symm
      rw [hposrw, hrec]
      conv_rhs => rw [range_succ_map]
      congr 1
      apply List.map_congr_left
      intro a _
      have hj1 : i + 1 + a = i + (a + 1) := by omega
      rw [hj1]

theorem take_min_slice (l : List Nat) (s p : Nat) :
    (l.drop p).take (min s (l.length - p)) = (l.drop p).take s := by
  rcases le_total s (l.length - p) with h | h
  · rw [min_eq_left h]
  · rw [min_eq_right h]
    have hlen : (l.drop p).length = l.length - p := List.length_drop p l
    rw [← hlen, List.take_length]
    exact (List.take_of_length_le (by omega)).symm

/-- C6 (amended).  With no instant reuse, a non-empty file and a
server-issued `sliceSize > 0` (no caller override), the chunked upload
partitions the file into exactly `ceil(size / sliceSize)` parts with part
indices 1 to `ceil(size / sliceSize)` in both cited implementations; in
`Uploader.upload_file_chunked` each part is moreover paired with an MD5
computed over just that part's bytes (the `sliceMD5` of `File2.slice`);
`Pan123openAPI._upload_common`, however, pairs NO per-part MD5 with any
part: its complete per-part request is the session id, the 1-based part
index and the raw bytes PUT to a presigned URL (its only MD5 is the
whole-file etag sent at create time) — see the counterexample. -/
theorem chunked_upload_partition
    (md5 : List Nat → String) (fileBytes : List Nat) (d : CreateData)
    (budget : Nat) (script : List CompleteResp) (srv : String) (pid : Nat)
    (hreuse : d.reuse = false) (hpre : d.preuploadID ≠ 0)
    (hs : d.sliceSize ≠ 0) (hsrv : d.servers.head? = some srv)
    (hsrvne : srv ≠ "") :
    (upload_file_chunked md5 fileBytes ⟨0, some d⟩ none none budget script).1 =
      (List.range ((fileBytes.length + d.sliceSize - 1) / d.sliceSize)).map
        (fun j =>
          ⟨j + 1, md5 ((fileBytes.drop (j * d.sliceSize)).take d.sliceSize),
            (fileBytes.drop (j * d.sliceSize)).take d.sliceSize⟩) ∧
    ((upload_file_chunked md5 fileBytes ⟨0, some d⟩ none none budget script).1).map
        (fun c => c.sliceNo) =
      (List.range ((fileBytes.length + d.sliceSize - 1) / d.sliceSize)).map
        (fun j => j + 1) ∧
    pan_slice_calls fileBytes d.sliceSize =
      (List.range ((fileBytes.length + d.sliceSize - 1) / d.sliceSize)).map
        (fun j => (j + 1, (fileBytes.drop (j * d.sliceSize)).take d.sliceSize)) ∧
    pan_slice_requests fileBytes d.sliceSize pid =
      (List.range ((fileBytes.length + d.sliceSize - 1) / d.sliceSize)).map
        (fun j =>
          ⟨pid, j + 1, (fileBytes.drop (j * d.sliceSize)).take d.sliceSize⟩) := by
  have hcalls :
      (upload_file_chunked md5 fileBytes ⟨0, some d⟩ none none budget script).1 =
        sliceLoop md5 fileBytes d.sliceSize
          ((fileBytes.length + d.sliceSize - 1) / d.sliceSize) 1 0 := by
    have hb : (d.reuse && d.fileID != 0) = false := by simp [hreuse]
    have hp : (d.preuploadID == 0) = false := by simp [hpre]
    have hss : pyOrNat ((none : Option Nat).getD 0)
        (pyOrNat d.sliceSize (16 * 1024 * 1024)) = d.sliceSize := by
      simp [pyOrNat, hs]
    have hsv : pyOrStr none d.servers.head? = some srv := by
      simp [pyOrStr, hsrv]
    have hsrvb : (srv == "") = false := by simp [hsrvne]
    simp only [upload_file_chunked, hb, hp, hss, hsv, hsrvb]
    have hnum : (d.sliceSize != 0) = true := by simp [hs]
    simp only [hnum, if_true, reduceCtorEq, if_false, Bool.false_eq_true]
    cases upload_complete_loop budget 0 script <;> rfl
  have hslice := sliceLoop_eq md5 fileBytes d.sliceSize hs
    ((fileBytes.length + d.sliceSize - 1) / d.sliceSize) 0 (by omega)
  have hmain :
      (upload_file_chunked md5 fileBytes ⟨0, some d⟩ none none budget script).1 =
        (List.range ((fileBytes.length + d.sliceSize - 1) / d.sliceSize)).map
          (fun j =>
            ⟨j + 1, md5 ((fileBytes.drop (j * d.sliceSize)).take d.sliceSize),
              (fileBytes.drop (j * d.sliceSize)).take d.sliceSize⟩) := by
    rw [hcalls]
    have h0 : (0 : Nat) * d.sliceSize = 0 := by ring
    simpa using hslice
  have hpan : pan_slice_calls fileBytes d.sliceSize =
      (List.range ((fileBytes.length + d.sliceSize - 1) / d.sliceSize)).map
        (fun j => (j + 1, (fileBytes.drop (j * d.sliceSize)).take d.sliceSize)) := by
    rw [pan_slice_calls]
    apply List.map_congr_left
    intro j _
    rw [take_min_slice]
  refine ⟨hmain, ?_, hpan, ?_⟩
  · rw [hmain, List.map_map]
    rfl
  · rw [pan_slice_requests, hpan, List.map_map]
    rfl

/-- Closed witness for C6: a 5-byte file with slice size 2 gives the three
parts `[9,8]`, `[7,6]`, `[5]`, numbered 1, 2, 3, each with its own MD5 in
the Uploader trace; pan's request trace for the same upload is the same
partition tagged with the session id only. -/
theorem chunked_upload_partition_witness :
    (upload_file_chunked (fun c => "h" ++ toString c.length) [9, 8, 7, 6, 5]
        ⟨0, some ⟨false, 0, 42, 2, ["srv"]⟩⟩ none none 300 []).1 =
      (List.range 3).map
        (fun j =>
          ⟨j + 1, (fun c => "h" ++ toString c.length)
              ((([9, 8, 7, 6, 5] : List Nat).drop (j * 2)).take 2),
            (([9, 8, 7, 6, 5] : List Nat).drop (j * 2)).take 2⟩) ∧
    pan_slice_requests [9, 8, 7, 6, 5] 2 42 =
      (List.range 3).map
        (fun j =>
          ⟨42, j + 1, (([9, 8, 7, 6, 5] : List Nat).drop (j * 2)).take 2⟩) :=
  ⟨(chunked_upload_partition (fun c => "h" ++ toString c.length) [9, 8, 7, 6, 5]
      ⟨false, 0, 42, 2, ["srv"]⟩ 300 [] "srv" 42 rfl (by decide) (by decide) rfl
      (by decide)).1,
   (chunked_upload_partition (fun c => "h" ++ toString c.length) [9, 8, 7, 6, 5]
      ⟨false, 0, 42, 2, ["srv"]⟩ 300 [] "srv" 42 rfl (by decide) (by decide) rfl
      (by decide)).2.2.2⟩

/-- C6 counterexample: the claim's per-part-MD5 conjunct fails for the cited
`Pan123openAPI._upload_common`.  For the concrete 5-byte file split at slice
size 2 under upload session 42, the COMPLETE per-part requests pan issues
are `(42, 1, [9, 8])`, `(42, 2, [7, 6])`, `(42, 3, [5])` — the session id
passed to `get_upload_url`, the 1-based part index, and the raw chunk bytes
PUT to the presigned URL; no MD5 over the part's bytes is paired with any
of the three parts.  `Uploader.upload_file_chunked` on the same file does
pair each part with the MD5 of exactly that part's bytes. -/
theorem pan_slices_carry_no_md5_counterexample :
    pan_slice_requests [9, 8, 7, 6, 5] 2 42 =
      [⟨42, 1, [9, 8]⟩, ⟨42, 2, [7, 6]⟩, ⟨42, 3, [5]⟩] ∧
    (upload_file_chunked (fun c => "h" ++ toString c.length) [9, 8, 7, 6, 5]
        ⟨0, some ⟨false, 0, 42, 2, ["srv"]⟩⟩ none none 300 []).1.map
      (fun c => c.sliceMD5) = ["h2", "h2", "h1"] := by
  refine ⟨rfl, rfl⟩

/-- C7 (amended).  The completion loop of `Uploader.upload_file_chunked`
treats status 20103 ("still verifying") as poll-again rather than error,
polls on a fixed 2-second interval, returns success exactly on a completion
result with a non-zero file id, raises the distinct `TimeoutError` once the
elapsed time exceeds the budget, and `RuntimeError` on any other non-zero
status; timeout and server-rejection are distinct outcomes.  (In
`Pan123openAPI._upload_common` the async flag is likewise poll-again, but
that loop has NO timeout — see the counterexample.) -/
theorem complete_poll_semantics (budget elapsed : Nat) (r : CompleteResp)
    (rest : List CompleteResp) :
    (r.code = 20103 → ¬(r.completed = true ∧ r.fileID ≠ 0) →
      elapsed + 2 ≤ budget →
      upload_complete_loop budget elapsed (r :: rest) =
        upload_complete_loop budget (elapsed + 2) rest) ∧
    ((r.code = 0 ∨ r.code = 20103) → r.completed = true → r.fileID ≠ 0 →
      upload_complete_loop budget elapsed (r :: rest) = .success r.fileID) ∧
    ((r.code = 0 ∨ r.code = 20103) → ¬(r.completed = true ∧ r.fileID ≠ 0) →
      elapsed + 2 > budget →
      upload_complete_loop budget elapsed (r :: rest) = .raisedTimeout) ∧
    (r.code ≠ 0 → r.code ≠ 20103 →
      upload_complete_loop budget elapsed (r :: rest) = .raisedRuntime) ∧
    (CompleteOutcome.raisedTimeout ≠ CompleteOutcome.raisedRuntime) := by
  refine ⟨?_, ?_, ?_, ?_, by decide⟩
  · intro hc hnc hb
    rw [upload_complete_loop]
    rw [if_neg (by simp [hc]), if_neg hnc, if_neg (by omega)]
  · intro hc hcomp hfid
    rw [upload_complete_loop]
    have hnr : ¬(r.code ≠ 0 ∧ r.code ≠ 20103) := by
      rcases hc with h | h <;> simp [h]
    rw [if_neg hnr, if_pos ⟨hcomp, hfid⟩]
  · intro hc hnc hb
    rw [upload_complete_loop]
    have hnr : ¬(r.code ≠ 0 ∧ r.code ≠ 20103) := by
      rcases hc with h | h <;> simp [h]
    rw [if_neg hnr, if_neg hnc, if_pos (by omega)]
  · intro h0 h1
    rw [upload_complete_loop]
    rw [if_pos ⟨h0, h1⟩]

/-- Closed witness for C7: a 20103 response polls on; a completed response
with file id 5 succeeds; an exhausted budget raises the timeout; code 400 is
the distinct server rejection. -/
theorem complete_poll_semantics_witness :
    upload_complete_loop 300 0 [⟨20103, false, 0⟩, ⟨0, true, 5⟩] =
      upload_complete_loop 300 2 [⟨0, true, 5⟩] ∧
    upload_complete_loop 300 2 [⟨0, true, 5⟩] = .success 5 ∧
    upload_complete_loop 300 299 [⟨20103, false, 0⟩] = .raisedTimeout ∧
    upload_complete_loop 300 0 [⟨400, false, 0⟩] = .raisedRuntime :=
  ⟨(complete_poll_semantics 300 0 ⟨20103, false, 0⟩ [⟨0, true, 5⟩]).1 rfl
      (by decide) (by omega),
   (complete_poll_semantics 300 2 ⟨0, true, 5⟩ []).2.1 (Or.inl rfl) rfl
      (by decide),
   (complete_poll_semantics 300 299 ⟨20103, false, 0⟩ []).2.2.1 (Or.inr rfl)
      (by decide) (by omega),
   (complete_poll_semantics 300 0 ⟨400, false, 0⟩ []).2.2.2.1 (by decide)
      (by decide)⟩

/-- C7 counterexample: in `Pan123openAPI._upload_common` the async
completion loop never times out.  After 200 polls of a never-completing
verification (2 s apart — about 400 s, beyond any 300 s budget) the phase is
still polling; no timeout failure distinct from a server rejection is ever
delivered to the caller, refuting the claim for that cited completion
phase.  The Uploader loop on the very same script raises its timeout. -/
theorem pan_complete_no_timeout_counterexample :
    pan_complete_phase ⟨false, true, 0⟩
        (List.replicate 200 ⟨false, false, 0⟩) = .polling ∧
    upload_complete_loop 300 0 (List.replicate 200 ⟨20103, false, 0⟩) =
      .raisedTimeout := by
  constructor
  · rw [pan_complete_phase]
    norm_num
    have hloop : ∀ n, panAsyncLoop
        (List.replicate n (⟨false, false, 0⟩ : PanCompleteData)) = .polling := by
      intro n
      induction n with
      | zero => rfl
      | succ k ihk =>
        rw [List.replicate_succ, panAsyncLoop]
        simpa using ihk
    exact hloop 200
  · have key : ∀ (n elapsed : Nat), elapsed ≤ 300 → 300 < elapsed + 2 * n →
        upload_complete_loop 300 elapsed
          (List.replicate n (⟨20103, false, 0⟩ : CompleteResp)) = .raisedTimeout := by
      intro n
      induction n with
      | zero => intro elapsed h1 h2; omega
      | succ k ihk =>
        intro elapsed h1 h2
        rw [List.replicate_succ, upload_complete_loop]
        rw [if_neg (by simp), if_neg (by simp)]
        by_cases hb : elapsed + 2 > 300
        · rw [if_pos hb]
        · rw [if_neg hb]
          exact ihk (elapsed + 2) (by omega) (by omega)
    exact key 200 0 (by omega) (by omega)

theorem chainCalls_length (g : Nat → String → Nat) :
    ∀ (parts : List String) (cp : Nat), (chainCalls g cp parts).length = parts.length := by
  intro parts
  induction parts with
  | nil => intro cp; rfl
  | cons p rest ih => intro cp; simp [chainCalls, ih]

theorem chainCalls_getLast (g : Nat → String → Nat) :
    ∀ (parts : List String) (cp : Nat), parts ≠ [] →
      (chainCalls g cp parts).getLast?.map (fun c => c.dirID) =
        some (chainFold g cp parts) := by
  intro parts
  induction parts with
  | nil => intro cp h; exact absurd rfl h
  | cons p rest ih =>
    intro cp _
    cases rest with
    | nil => rfl
    | cons q rest' =>
      have hX : chainCalls g (g cp p) (q :: rest') =
          ⟨g cp p, q, g (g cp p) q⟩ :: chainCalls g (g (g cp p) q) rest' := rfl
      have hih := ih (g cp p) (by simp)
      rw [chainCalls, chainFold, hX, List.getLast?_cons_cons, ← hX]
      exact hih

theorem ensureGo_all_absent (backend : Nat → List Page)
    (g : Nat → String → Nat)
    (hempty : ∀ pid, backend pid = [⟨[], -1⟩]) :
    ∀ (parts : List String) (cp : Nat),
      ensureGo backend (fun p n => some (g p n)) parts cp =
        .ok (chainFold g cp parts, chainCalls g cp parts) := by
  intro parts
  induction parts with
  | nil => intro cp; rfl
  | cons part rest ih =>
    intro cp
    have hlk : _get_file_list_v2_by_part backend cp part true = none := by
      rw [_get_file_list_v2_by_part, hempty]
      rfl
    rw [ensureGo, hlk]
    simp only
    rw [ih (g cp part)]
    rfl

/-- C8.  (1) With every directory empty (an empty root, and freshly created
directories are empty), `ensure_remote_dir` on any non-empty all-absent path
issues exactly one create call per segment — each parented at the previous
segment's returned `dirID` (the `chainCalls` chain) — and returns the last
segment's `dirID`; in particular `chainCalls` has exactly one entry per
segment and ends with the returned id.  (2) When a segment already exists
under the current parent as the unique non-trashed directory of that name,
it is resolved by lookup: the walk continues from its id and no create call
is issued for that segment. -/
theorem ensure_remote_dir_creates_chain (backend : Nat → List Page)
    (g : Nat → String → Nat) (parts : List String)
    (mk : Nat → String → Option Nat) (cp : Nat) (part : String)
    (rest : List String) (entries : List Entry) (dx : Entry)
    (hempty : ∀ pid, backend pid = [⟨[], -1⟩]) (hne : parts ≠ []) :
    (ensure_remote_dir backend (fun p n => some (g p n)) parts =
        .ok (chainFold g 0 parts, chainCalls g 0 parts) ∧
      (chainCalls g 0 parts).length = parts.length ∧
      (chainCalls g 0 parts).getLast?.map (fun c => c.dirID) =
        some (chainFold g 0 parts)) ∧
    (∀ (backend2 : Nat → List Page), backend2 cp = [⟨entries, -1⟩] →
      dx ∈ entries → dx.filename = part → dx.trashed = 0 → dx.type = 1 →
      (∀ b ∈ entries, b.filename = part → b.trashed = 0 → b.type = 1 → b = dx) →
      ensureGo backend2 mk (part :: rest) cp = ensureGo backend2 mk rest dx.fileId) := by
  constructor
  · refine ⟨?_, chainCalls_length g parts 0, chainCalls_getLast g parts 0 hne⟩
    rw [ensure_remote_dir, if_neg (by simpa using hne)]
    exact ensureGo_all_absent backend g hempty parts 0
  · intro backend2 hb2 hdm hdn hdt hdty hu
    have hfl : dx ∈ (File_list_v2 ⟨entries, -1⟩).fileList := by
      simp only [File_list_v2, if_neg Bool.false_ne_true, List.mem_filter]
      exact ⟨hdm, by simp [hdt]⟩
    have hfind : (File_list_v2 ⟨entries, -1⟩).fileList.find?
        (fun it => it.filename == part && it.trashed == 0 && it.type == 1) =
          some dx := by
      apply find?_eq_of_mem_of_unique _ _ dx hfl
      · simp [hdn, hdt, hdty]
      · intro b hbfl hpb
        have hbent : b ∈ entries := by
          simp only [File_list_v2, if_neg Bool.false_ne_true,
            List.mem_filter] at hbfl
          exact hbfl.1
        simp only [Bool.and_eq_true, beq_iff_eq] at hpb
        exact hu b hbent hpb.1.1 hpb.1.2 hpb.2
    have hlk : _get_file_list_v2_by_part backend2 cp part true = some dx.fileId := by
      rw [_get_file_list_v2_by_part, hb2, getByPartGo]
      simp only [_find_in_list_by_name, if_true, reduceIte]
      rw [hfind]
      rfl
    rw [ensureGo, hlk]

/-- Closed witness for C8: `ensureDirectory("/a/b/c")` on an empty root
issues exactly the three chained create calls and returns the id of `c`. -/
theorem ensure_remote_dir_creates_chain_witness :
    ensure_remote_dir (fun _ => [⟨[], -1⟩])
        (fun p n => some (p * 100 + n.length)) ["a", "b", "c"] =
      .ok (chainFold (fun p n => p * 100 + n.length) 0 ["a", "b", "c"],
        chainCalls (fun p n => p * 100 + n.length) 0 ["a", "b", "c"]) ∧
    (chainCalls (fun p n => p * 100 + n.length) 0 ["a", "b", "c"]).length = 3 :=
  ⟨((ensure_remote_dir_creates_chain (fun _ => [⟨[], -1⟩])
      (fun p n => p * 100 + n.length) ["a", "b", "c"]
      (fun p n => some (p * 100 + n.length)) 0 "a" [] [] ⟨0, "", 0, 0, ""⟩
      (fun _ => rfl) (by simp)).1).1,
   ((ensure_remote_dir_creates_chain (fun _ => [⟨[], -1⟩])
      (fun p n => p * 100 + n.length) ["a", "b", "c"]
      (fun p n => some (p * 100 + n.length)) 0 "a" [] [] ⟨0, "", 0, 0, ""⟩
      (fun _ => rfl) (by simp)).1).2.1⟩

theorem foldl_dictInsert_eq_map (f : TaskResult → NormEntry) :
    ∀ (results : List (String × TaskResult)) (acc : List (String × NormEntry)),
      (∀ kr ∈ results, ∀ q ∈ acc, q.1 ≠ kr.1) →
      (results.map Prod.fst).Nodup →
      results.foldl (fun m kr => dictInsert m kr.1 (f kr.2)) acc =
        acc ++ results.map (fun kr => (kr.1, f kr.2)) := by
  intro results
  induction results with
  | nil => intro acc _ _; simp
  | cons kr rest ih =>
    intro acc hdisj hnd
    have hnotin : acc.any (fun q => q.1 == kr.1) = false := by
      rw [Bool.eq_false_iff]
      intro hA
      obtain ⟨q, hq, hq2⟩ := List.any_eq_true.mp hA
      exact hdisj kr (List.mem_cons_self _ _) q hq (by
        have := beq_iff_eq.mp hq2
        simp [this])
    rw [List.foldl_cons]
    rw [dictInsert, if_neg (by simp [hnotin])]
    rw [List.map_cons] at hnd ⊢
    have hnd' : (rest.map Prod.fst).Nodup := (List.nodup_cons.mp hnd).2
    have hhead : kr.1 ∉ rest.map Prod.fst := (List.nodup_cons.mp hnd).1
    rw [ih (acc ++ [(kr.1, f kr.2)]) ?_ hnd']
    · simp
    · intro kr' hkr' q hq
      rcases List.mem_append.mp hq with h | h
      · exact hdisj kr' (List.mem_cons_of_mem _ hkr') q h
      · have hq1 : q = (kr.1, f kr.2) := by simpa using h
        intro hcontra
        apply hhead
        rw [hq1] at hcontra
        simp only at hcontra
        rw [hcontra]
        exact List.mem_map_of_mem Prod.fst hkr'

theorem download_folder_loop_counts :
    ∀ (items : List (AnnEntry × DownOutcome)),
      (download_folder_loop items).1 =
        (items.filter (fun io => downSucceeds io.2)).length ∧
      (download_folder_loop items).2.1 =
        (items.filter (fun io => !downSucceeds io.2)).length ∧
      (download_folder_loop items).2.2.length = items.length := by
  intro items
  induction items with
  | nil => exact ⟨rfl, rfl, rfl⟩
  | cons io rest ih =>
    obtain ⟨h1, h2, h3⟩ := ih
    obtain ⟨f, o⟩ := io
    by_cases ho : downSucceeds o = true
    · simp [download_folder_loop, List.filter_cons, ho, h1, h2, h3]
    · have ho' : downSucceeds o = false := Bool.eq_false_iff.mpr ho
      simp [download_folder_loop, List.filter_cons, ho', h1, h2, h3]

theorem length_filter_of_map {α β : Type} (f : α → β) (p : β → Bool) :
    ∀ (l : List α),
      ((l.map f).filter p).length = (l.filter (fun a => p (f a))).length := by
  intro l
  induction l with
  | nil => rfl
  | cons a t ih =>
    rw [List.map_cons, List.filter_cons, List.filter_cons]
    by_cases hp : p (f a) = true
    · simp [hp, ih]
    · have hp' : p (f a) = false := Bool.eq_false_iff.mpr hp
      simp [hp', ih]

theorem length_filter_split {α : Type} (p : α → Bool) :
    ∀ (l : List α),
      (l.filter p).length + (l.filter (fun a => !p a)).length = l.length := by
  intro l
  induction l with
  | nil => rfl
  | cons a t ih =>
    rw [List.filter_cons, List.filter_cons]
    by_cases hp : p a = true
    · simp [hp]; omega
    · have hp' : p a = false := Bool.eq_false_iff.mpr hp
      simp [hp']; omega

/-- C9.  Bulk transfers aggregate per-file outcomes and never raise: for
`Uploader.upload_folder` over files with distinct paths, the report's
`total` is the number of files, `succeeded` counts exactly the per-file
successes, `succeeded + failed = total`, the report carries one normalized
entry per file in order (never a single boolean), and an exception wrapped
by the per-item guard is recorded as that file's failure; likewise
`Downloader.download_folder` reports `total` = number of selected files,
`succeeded` / `failed` counting exactly the per-file outcomes with
`succeeded + failed = total`, and one status entry per file. -/
theorem bulk_partial_failure_isolation
    (results : List (String × TaskResult))
    (file_list : List AnnEntry) (outcomes : List DownOutcome)
    (hnd : (results.map Prod.fst).Nodup)
    (hlen : outcomes.length =
      (file_list.filter (fun f => f.type == 0 && f.trashed == 0)).length) :
    ((upload_folder_report results).entries =
        results.map (fun kr => (kr.1, normalizeOne kr.2)) ∧
      (upload_folder_report results).total = results.length ∧
      (upload_folder_report results).succeeded =
        (results.filter (fun kr => (normalizeOne kr.2).success)).length ∧
      (upload_folder_report results).succeeded +
          (upload_folder_report results).failed =
        (upload_folder_report results).total ∧
      (∀ m, (normalizeOne (.errored m)).success = false)) ∧
    ((download_folder_report file_list outcomes).total =
        (file_list.filter (fun f => f.type == 0 && f.trashed == 0)).length ∧
      (download_folder_report file_list outcomes).succeeded =
        (((file_list.filter (fun f => f.type == 0 && f.trashed == 0)).zip
            outcomes).filter (fun io => downSucceeds io.2)).length ∧
      (download_folder_report file_list outcomes).failed =
        (((file_list.filter (fun f => f.type == 0 && f.trashed == 0)).zip
            outcomes).filter (fun io => !downSucceeds io.2)).length ∧
      (download_folder_report file_list outcomes).succeeded +
          (download_folder_report file_list outcomes).failed =
        (download_folder_report file_list outcomes).total ∧
      (download_folder_report file_list outcomes).files.length =
        (download_folder_report file_list outcomes).total) := by
  have hmap : (upload_folder_report results).entries =
      results.map (fun kr => (kr.1, normalizeOne kr.2)) := by
    rw [upload_folder_report]
    exact foldl_dictInsert_eq_map normalizeOne results [] (by simp) hnd
  have hfilter_succ :
      ((results.map (fun kr => (kr.1, normalizeOne kr.2))).filter
          (fun q => q.2.success)).length =
        (results.filter (fun kr => (normalizeOne kr.2).success)).length :=
    length_filter_of_map (fun kr => (kr.1, normalizeOne kr.2))
      (fun q => q.2.success) results
  constructor
  · refine ⟨hmap, ?_, ?_, ?_, fun m => rfl⟩
    · show (upload_folder_report results).entries.length = results.length
      rw [hmap, List.length_map]
    · show ((upload_folder_report results).entries.filter
          (fun q => q.2.success)).length = _
      rw [hmap, hfilter_succ]
    · have hle : (upload_folder_report results).succeeded ≤
          (upload_folder_report results).total := by
        show ((upload_folder_report results).entries.filter _).length ≤
          (upload_folder_report results).entries.length
        exact List.length_filter_le _ _
      show (upload_folder_report results).succeeded +
          ((upload_folder_report results).total -
            (upload_folder_report results).succeeded) = _
      omega
  · set files := file_list.filter (fun f => f.type == 0 && f.trashed == 0) with hfiles
    obtain ⟨hc1, hc2, hc3⟩ := download_folder_loop_counts (files.zip outcomes)
    by_cases hemp : files.isEmpty = true
    · have hfe : files = [] := List.isEmpty_iff.mp hemp
      rw [download_folder_report, ← hfiles, hfe]
      simp
    · have hemp' : files.isEmpty = false := Bool.eq_false_iff.mpr hemp
      have hrep : download_folder_report file_list outcomes =
          ⟨files.length, (download_folder_loop (files.zip outcomes)).1,
            (download_folder_loop (files.zip outcomes)).2.1,
            (download_folder_loop (files.zip outcomes)).2.2⟩ := by
        rw [download_folder_report, ← hfiles, hemp']
        rfl
      have hziplen : (files.zip outcomes).length = files.length := by
        rw [List.length_zip]
        omega
      rw [hrep]
      refine ⟨rfl, hc1, hc2, ?_, ?_⟩
      · show (download_folder_loop (files.zip outcomes)).1 +
            (download_folder_loop (files.zip outcomes)).2.1 = files.length
        rw [hc1, hc2, length_filter_split (fun io => downSucceeds io.2)
          (files.zip outcomes), hziplen]
      · show (download_folder_loop (files.zip outcomes)).2.2.length = files.length
        rw [hc3, hziplen]

/-- Closed witness for C9: five files, one failure — both aggregate reports
show 5 total, 4 succeeded, 1 failed. -/
theorem bulk_partial_failure_isolation_witness :
    (upload_folder_report c9Results).total = 5 ∧
    (upload_folder_report c9Results).succeeded = 4 ∧
    (upload_folder_report c9Results).failed = 1 ∧
    (download_folder_report c9Files c9Outcomes).total = 5 ∧
    (download_folder_report c9Files c9Outcomes).succeeded = 4 ∧
    (download_folder_report c9Files c9Outcomes).failed = 1 := by
  have h := bulk_partial_failure_isolation c9Results c9Files c9Outcomes
    (by decide) (by decide)
  obtain ⟨⟨hu1, hu2, hu3, hu4, _⟩, hd1, hd2, hd3, hd4, hd5⟩ := h
  have hu2' : (upload_folder_report c9Results).total = 5 := by rw [hu2]; decide
  have hu3' : (upload_folder_report c9Results).succeeded = 4 := by rw [hu3]; decide
  have hd1' : (download_folder_report c9Files c9Outcomes).total = 5 := by
    rw [hd1]; decide
  have hd2' : (download_folder_report c9Files c9Outcomes).succeeded = 4 := by
    rw [hd2]; decide
  refine ⟨hu2', hu3', by omega, hd1', hd2', by omega⟩

end Cpan123

